import Mathlib

/-!
Shallow embedding of the voice-bot front end (frontend `script.js`) together
with the one server behaviour the claims reference (the WebSocket handler in
`server.js`).  JavaScript strings become `String`, nullable values become
`Option`, the `partialBuffer` object becomes an association list from request
id to accumulated text, and speech probabilities (floats in `[0,1]`) are
modelled as rationals.  Side effects (audio control, WebSocket sends,
recognizer start/stop) are recorded as an ordered list of `Effect`s emitted by
each handler, so the order of observable actions inside a handler is part of
the model.  The single-threaded event loop is modelled by a step function over
discrete events; `setTimeout` callbacks (the 350 ms dead-zone timer) are
delivered as their own events.
-/

namespace VoiceBot

/-- A decoded inbound/outbound WebSocket frame, as destructured by
`handleWSMessage`: `const { type, id, text, error } = msg`.  Absent or `null`
fields are `none`. -/
structure WSMsg where
  type : String
  id : Option String
  text : Option String
  error : Option String
  deriving Repr, DecidableEq

/-- Observable side effects, in the order the handlers perform them. -/
inductive Effect where
  /-- Call of `window.speechSynthesis.cancel()`. -/
  | cancelSynthesis
  /-- pausing and discarding the `audio` element -/
  | stopAudio
  /-- Send of a cancel envelope for `id` on the socket. -/
  | sendCancel (id : String)
  /-- Send of a query envelope for `id` on the socket. -/
  | sendQuery (id : String) (question : String)
  /-- the non-streaming `/query` fetch fallback -/
  | fetchQuery (question : String)
  /-- Call of `playAnswerAudio(text)`: hand the final answer to playback. -/
  | speak (text : String)
  /-- Call of `recognition.start()`. -/
  | startRecognition
  /-- Call of `recognition.stop()`. -/
  | stopRecognition
  /-- Scheduling of the 350 ms dead-zone timer. -/
  | armDeadZone
  /-- Call of `stopVAD()` releasing the audio-processing nodes. -/
  | stopVAD
  /-- Call of `startVAD(session)`. -/
  | startVAD
  /-- Call of `createWebSocket()` opening the transport. -/
  | openWS
  /-- Call of `ws.close()`. -/
  | closeWS
  /-- the `setTimeout(createWebSocket, 2000)` reconnect -/
  | scheduleReconnect
  deriving Repr, DecidableEq

/-- The client's mutable globals from the top of `script.js`, plus the DOM
text fields the handlers write.  Object-valued globals (`recognition`,
`audio`, `ws`) are tracked as existence booleans. -/
structure ClientState where
  running : Bool
  aiSpeaking : Bool
  bargeInEnabled : Bool
  /-- whether the `recognition` object exists -/
  recognition : Bool
  vadRunning : Bool
  /-- whether the `ws` handle exists -/
  wsOpen : Bool
  wsReady : Bool
  currentReqId : Option String
  /-- The `partialBuffer` object: request id ↦ text accumulated so far. -/
  partialBuffer : List (String × String)
  /-- whether the `audio` element exists -/
  audio : Bool
  userText : String
  botText : String
  micIcon : String
  deriving Repr, DecidableEq

/-- The initial values of the globals when the script loads. -/
def initState : ClientState :=
  { running := false, aiSpeaking := false, bargeInEnabled := false,
    recognition := false, vadRunning := false, wsOpen := false,
    wsReady := false, currentReqId := none, partialBuffer := [],
    audio := false, userText := "", botText := "", micIcon := "" }

/-- JavaScript truthiness of a nullable string: `null`/`undefined` and the
empty string are falsy. -/
def truthy : Option String → Bool
  | none => false
  | some s => !(s = "")

/-- JavaScript `a || b` on strings: `b` when `a` is falsy (empty). -/
def jsOr (a b : String) : String := if a = "" then b else a

/-- Lookup in the `partialBuffer` object (`partialBuffer[id]`). -/
def bufGet : List (String × String) → String → Option String
  | [], _ => none
  | (k, v) :: rest, k' => if k = k' then some v else bufGet rest k'

/-- Assignment `partialBuffer[id] = v`. -/
def bufSet : List (String × String) → String → String → List (String × String)
  | [], k, v => [(k, v)]
  | (k', v') :: rest, k, v =>
    if k' = k then (k, v) :: rest else (k', v') :: bufSet rest k v

/-- Deletion `delete partialBuffer[id]`. -/
def bufDel : List (String × String) → String → List (String × String)
  | [], _ => []
  | (k', v') :: rest, k =>
    if k' = k then bufDel rest k else (k', v') :: bufDel rest k

/-- Threshold selection `aiSpeaking ? 0.8 : 0.65` from `startVAD`. -/
def vadThreshold (aiSpeaking : Bool) : ℚ :=
  if aiSpeaking then 0.8 else 0.65

/-- Function `stopSpeaking(startListening)`: clears the speaking flags, cancels
synthesis, tears down the `audio` element if present, sends a cancel for the
current request id when the socket is ready and the id is truthy (clearing
the id), and optionally restarts recognition.  It does not touch
`partialBuffer`. -/
def stopSpeaking (startListening : Bool) (s : ClientState) :
    ClientState × List Effect :=
  let audioEffs := if s.audio then [Effect.stopAudio] else []
  let doCancel := s.wsReady && truthy s.currentReqId
  let cancelEffs :=
    match s.currentReqId with
    | some rid => if doCancel then [Effect.sendCancel rid] else []
    | none => []
  let listenEffs :=
    if startListening && s.recognition then [Effect.startRecognition] else []
  ({ s with aiSpeaking := false, bargeInEnabled := false, audio := false,
            currentReqId := if doCancel then none else s.currentReqId },
   Effect.cancelSynthesis :: audioEffs ++ cancelEffs ++ listenEffs)

/-- Function `onAISpeechStart()`: marks the assistant as speaking, stops recognition,
disarms barge-in and schedules the 350 ms dead-zone timer (delivered later as
`Event.deadZoneTimer`). -/
def onAISpeechStart (s : ClientState) : ClientState × List Effect :=
  ({ s with aiSpeaking := true, bargeInEnabled := false },
   (if s.recognition then [Effect.stopRecognition] else []) ++
     [Effect.armDeadZone])

/-- Function `onAISpeechEnd()`: clears the speaking flags and restarts recognition. -/
def onAISpeechEnd (s : ClientState) : ClientState × List Effect :=
  ({ s with aiSpeaking := false, bargeInEnabled := false },
   if s.recognition then [Effect.startRecognition] else [])

/-- Function `handleWSMessage(msg)`: drops frames whose `id` is falsy; appends
`partial` text to the accumulator and displays the running total; on `final`
computes `text || partialBuffer[id] || ""`, deletes the accumulator entry and
starts playback (whose synchronous prefix is `onAISpeechStart`); on `error`
writes the error message to the display.  Other types fall through. -/
def handleWSMessage (m : WSMsg) (s : ClientState) : ClientState × List Effect :=
  match m.id with
  | none => (s, [])
  | some id =>
    if id = "" then (s, [])
    else if m.type = "partial" then
      let newVal := ((bufGet s.partialBuffer id).getD "") ++ (m.text.getD "")
      ({ s with partialBuffer := bufSet s.partialBuffer id newVal,
                botText := newVal }, [])
    else if m.type = "final" then
      let finalText :=
        jsOr (m.text.getD "") (jsOr ((bufGet s.partialBuffer id).getD "") "")
      let s1 := { s with partialBuffer := bufDel s.partialBuffer id }
      let r := onAISpeechStart s1
      (r.1, r.2 ++ [Effect.speak finalText])
    else if m.type = "error" then
      ({ s with botText := "Error: " ++ jsOr (m.error.getD "") "Unknown error" },
       [])
    else (s, [])

/-- Function `handleQuestion(questionText)` with the fresh uuid passed explicitly:
on a non-empty question shows "Thinking...", and when the streaming channel is
ready records the new id as current, creates its (empty) accumulator entry and
sends the query; otherwise falls back to the `/query` fetch. -/
def handleQuestion (q : String) (freshId : String) (s : ClientState) :
    ClientState × List Effect :=
  if q.trim = "" then (s, [])
  else
    let s1 := { s with botText := "Thinking..." }
    if s1.wsReady then
      ({ s1 with currentReqId := some freshId,
                 partialBuffer := bufSet s1.partialBuffer freshId "" },
       [Effect.sendQuery freshId q])
    else
      (s1, [Effect.fetchQuery q])

/-- Handler `recognition.onresult`: trims the transcript, discards it when empty,
shows it, and — when the assistant is speaking — first runs
`stopSpeaking(false)` and then (after the 40 ms settle delay) submits the
question; otherwise submits it directly. -/
def onResult (raw : String) (freshId : String) (s : ClientState) :
    ClientState × List Effect :=
  let t := raw.trim
  if t = "" then (s, [])
  else
    let s1 := { s with userText := t }
    if s1.aiSpeaking then
      let r1 := stopSpeaking false s1
      let r2 := handleQuestion t freshId r1.1
      (r2.1, r1.2 ++ r2.2)
    else
      let r := handleQuestion t freshId s1
      (r.1, r.2)

/-- Function `startAssistant()`: no-op when already running; otherwise starts
recognition, the VAD pipeline and the WebSocket (which becomes ready only on
its open event). -/
def startAssistant (s : ClientState) : ClientState × List Effect :=
  if s.running then (s, [])
  else
    ({ s with running := true, micIcon := "🟢", botText := "Listening...",
              recognition := true, vadRunning := true, wsOpen := true },
     [Effect.startRecognition, Effect.startVAD, Effect.openWS])

/-- Function `stopAssistant()`: no-op when not running; otherwise detaches and stops
recognition, stops the VAD, runs `stopSpeaking(false)` and closes the
WebSocket. -/
def stopAssistant (s : ClientState) : ClientState × List Effect :=
  if !s.running then (s, [])
  else
    let s1 := { s with running := false, micIcon := "🎤", botText := "Stopped" }
    let recEffs := if s1.recognition then [Effect.stopRecognition] else []
    let s2 := { s1 with recognition := false }
    let s3 := { s2 with vadRunning := false }
    let r := stopSpeaking false s3
    let wsEffs := if r.1.wsOpen then [Effect.closeWS] else []
    ({ r.1 with wsOpen := false, wsReady := false },
     recEffs ++ [Effect.stopVAD] ++ r.2 ++ wsEffs)

/-- The discrete events the client's event loop can deliver. -/
inductive Event where
  /-- an inbound decoded WebSocket frame -/
  | wsMsg (m : WSMsg)
  /-- one VAD classification pass producing a speech probability -/
  | vad (prob : ℚ)
  /-- the 350 ms dead-zone `setTimeout` callback firing -/
  | deadZoneTimer
  /-- playback (or fallback synthesis) ends naturally: `onAISpeechEnd` -/
  | speechEnd
  /-- Firing of `recognition.onresult` with a transcript and the uuid it would mint. -/
  | transcript (raw : String) (freshId : String)
  /-- Firing of `recognition.onend`. -/
  | recEnd
  /-- mic-button click while idle -/
  | startBtn
  /-- mic-button click while running -/
  | stopBtn
  /-- Firing of `ws.onopen`. -/
  | wsOpenEvt
  /-- Firing of `ws.onclose`. -/
  | wsCloseEvt
  deriving Repr, DecidableEq

/-- One reaction of the event loop.  The VAD branch is the barge-in check in
`startVAD`: `if (aiSpeaking && bargeInEnabled && speechProb > threshold)
stopSpeaking(true)`.  The dead-zone timer is
`() => { if (aiSpeaking) bargeInEnabled = true; }`. -/
def step (s : ClientState) (e : Event) : ClientState × List Effect :=
  match e with
  | .wsMsg m => handleWSMessage m s
  | .vad p =>
    if s.aiSpeaking && s.bargeInEnabled &&
        decide (p > vadThreshold s.aiSpeaking) then
      stopSpeaking true s
    else (s, [])
  | .deadZoneTimer =>
    (if s.aiSpeaking then { s with bargeInEnabled := true } else s, [])
  | .speechEnd => onAISpeechEnd s
  | .transcript raw freshId => onResult raw freshId s
  | .recEnd =>
    ({ s with micIcon := if s.running then "🎙️" else "🎤" },
     if s.running && !s.aiSpeaking then [Effect.startRecognition] else [])
  | .startBtn => startAssistant s
  | .stopBtn => stopAssistant s
  | .wsOpenEvt => ({ s with wsReady := true }, [])
  | .wsCloseEvt => ({ s with wsReady := false }, [Effect.scheduleReconnect])

/-- Run a sequence of events, discarding effects. -/
def runEvents (s : ClientState) (es : List Event) : ClientState :=
  es.foldl (fun s e => (step s e).1) s

/-- States reachable from the freshly-loaded script by event-loop steps. -/
inductive Reachable : ClientState → Prop where
  | init : Reachable initState
  | next : ∀ {s} (e : Event), Reachable s → Reachable (step s e).1

/-- The server's reply to a frame that fails to parse as JSON
(`server.js`: `safeSend(ws, { type: 'error', id: null, error: 'Invalid JSON' })`). -/
def invalidJsonReply : WSMsg :=
  { type := "error", id := none, text := none, error := some "Invalid JSON" }

/-- In-order concatenation of a list of text fragments (the reference
function for the accumulator's append behaviour). -/
def concatFrags : List String → String
  | [] => ""
  | t :: ts => t ++ concatFrags ts

/-- A running session in mid-playback: speaking with barge-in armed, an
active request `"a1"` whose accumulator holds `"Hel"`, and an audio element
playing.  Used as the concrete input for several witnesses. -/
def exState : ClientState :=
  { initState with
      running := true, recognition := true, vadRunning := true,
      wsOpen := true, wsReady := true, aiSpeaking := true,
      bargeInEnabled := true, currentReqId := some "a1",
      partialBuffer := [("a1", "Hel")], audio := true, botText := "Hel" }

/-- A `partial` frame for request `id` carrying fragment `t`. -/
def partialEvt (id t : String) : Event :=
  Event.wsMsg { type := "partial", id := some id, text := some t, error := none }

/-- A `final` frame for request `id` whose payload omits the text. -/
def finalNoTextMsg (id : String) : WSMsg :=
  { type := "final", id := some id, text := none, error := none }

/-- A state in which request `"b2"` is the tracked active request while a
superseded request `"a1"` still has an accumulator entry. -/
def staleState : ClientState :=
  { initState with
      running := true, recognition := true, vadRunning := true,
      wsOpen := true, wsReady := true, currentReqId := some "b2",
      partialBuffer := [("a1", "old"), ("b2", "")], botText := "Thinking..." }

/-- The state reached by: start the assistant, the socket opens, the user
asks a question, the final answer arrives (starting playback), and the
dead-zone timer fires. -/
def armedState : ClientState :=
  (step (step (step (step (step initState Event.startBtn).1 Event.wsOpenEvt).1
    (Event.transcript "hi" "a1")).1
    (Event.wsMsg { type := "final", id := some "a1", text := some "Hello", error := none })).1
    Event.deadZoneTimer).1

end VoiceBot

namespace VoiceBot

theorem bufGet_bufSet_self (b : List (String × String)) (k v : String) :
    bufGet (bufSet b k v) k = some v := by
  induction b with
  | nil => simp [bufGet, bufSet]
  | cons hd tl ih =>
    obtain ⟨k', v'⟩ := hd
    by_cases h : k' = k
    · simp [bufSet, h, bufGet]
    · simp [bufSet, h, bufGet, ih]

theorem bufGet_bufDel_self (b : List (String × String)) (k : String) :
    bufGet (bufDel b k) k = none := by
  induction b with
  | nil => simp [bufGet, bufDel]
  | cons hd tl ih =>
    obtain ⟨k', v'⟩ := hd
    by_cases h : k' = k
    · simp [bufDel, h, ih]
    · simp [bufDel, h, bufGet, ih]

theorem stopSpeaking_bargeIn (b : Bool) (s : ClientState) :
    (stopSpeaking b s).1.bargeInEnabled = false := by
  simp [stopSpeaking]

theorem stopSpeaking_partialBuffer (b : Bool) (s : ClientState) :
    (stopSpeaking b s).1.partialBuffer = s.partialBuffer := by
  simp [stopSpeaking]

theorem handleQuestion_bargeIn (q fid : String) (s : ClientState) :
    (handleQuestion q fid s).1.bargeInEnabled = s.bargeInEnabled := by
  unfold handleQuestion
  by_cases h1 : q.trim = "" <;> by_cases h2 : s.wsReady = true <;> simp [h1, h2]

theorem handleQuestion_aiSpeaking (q fid : String) (s : ClientState) :
    (handleQuestion q fid s).1.aiSpeaking = s.aiSpeaking := by
  unfold handleQuestion
  by_cases h1 : q.trim = "" <;> by_cases h2 : s.wsReady = true <;> simp [h1, h2]

theorem handleWSMessage_flags (m : WSMsg) (s : ClientState) :
    ((handleWSMessage m s).1.bargeInEnabled = s.bargeInEnabled ∧
      (handleWSMessage m s).1.aiSpeaking = s.aiSpeaking) ∨
    (handleWSMessage m s).1.bargeInEnabled = false := by
  unfold handleWSMessage
  rcases m with ⟨t, mid, tx, er⟩
  cases mid with
  | none => exact Or.inl ⟨rfl, rfl⟩
  | some id =>
    dsimp only
    by_cases h1 : id = ""
    · simp [h1]
    · by_cases h2 : t = "partial"
      · simp [h1, h2]
      · by_cases h3 : t = "final"
        · simp [h1, h2, h3, onAISpeechStart]
        · by_cases h4 : t = "error"
          · simp [h1, h2, h3, h4]
          · simp [h1, h2, h3, h4]

theorem onResult_flags (raw fid : String) (s : ClientState) :
    ((onResult raw fid s).1.bargeInEnabled = s.bargeInEnabled ∧
      (onResult raw fid s).1.aiSpeaking = s.aiSpeaking) ∨
    (onResult raw fid s).1.bargeInEnabled = false := by
  unfold onResult
  by_cases h1 : raw.trim = ""
  · simp [h1]
  · cases ha : s.aiSpeaking
    · left
      simp [h1, ha, handleQuestion_bargeIn, handleQuestion_aiSpeaking]
    · right
      simp [h1, ha, handleQuestion_bargeIn, stopSpeaking_bargeIn]

theorem startAssistant_flags (s : ClientState) :
    (startAssistant s).1.bargeInEnabled = s.bargeInEnabled ∧
    (startAssistant s).1.aiSpeaking = s.aiSpeaking := by
  unfold startAssistant
  by_cases h : s.running = true <;> simp [h]

theorem stopAssistant_flags (s : ClientState) :
    ((stopAssistant s).1.bargeInEnabled = s.bargeInEnabled ∧
      (stopAssistant s).1.aiSpeaking = s.aiSpeaking) ∨
    (stopAssistant s).1.bargeInEnabled = false := by
  unfold stopAssistant
  by_cases h : s.running = true
  · right; simp [h, stopSpeaking]
  · left; simp [h]

/-- Every event other than the dead-zone timer either leaves both speaking
flags unchanged or leaves barge-in disarmed. -/
theorem step_flags (s : ClientState) (e : Event)
    (he : ¬ e = Event.deadZoneTimer) :
    (((step s e).1.bargeInEnabled = s.bargeInEnabled ∧
       (step s e).1.aiSpeaking = s.aiSpeaking) ∨
      (step s e).1.bargeInEnabled = false) := by
  cases e with
  | wsMsg m => exact handleWSMessage_flags m s
  | vad p =>
    by_cases h : (s.aiSpeaking && s.bargeInEnabled &&
        decide (p > vadThreshold s.aiSpeaking)) = true
    · right; simp [step, h, stopSpeaking]
    · left; simp [step, h]
  | deadZoneTimer => exact absurd rfl he
  | speechEnd => right; simp [step, onAISpeechEnd]
  | transcript raw fid => exact onResult_flags raw fid s
  | recEnd => left; exact ⟨rfl, rfl⟩
  | startBtn => exact Or.inl (startAssistant_flags s)
  | stopBtn => exact stopAssistant_flags s
  | wsOpenEvt => left; exact ⟨rfl, rfl⟩
  | wsCloseEvt => left; exact ⟨rfl, rfl⟩

theorem runEvents_disarmed (es : List Event) (s : ClientState)
    (hnot : Event.deadZoneTimer ∉ es) (hb : s.bargeInEnabled = false) :
    (runEvents s es).bargeInEnabled = false := by
  induction es generalizing s with
  | nil => exact hb
  | cons e rest ih =>
    have he : ¬ e = Event.deadZoneTimer := fun h => hnot (h ▸ List.mem_cons_self e rest)
    have hrest : Event.deadZoneTimer ∉ rest := fun h => hnot (List.mem_cons_of_mem e h)
    have : (step s e).1.bargeInEnabled = false := by
      rcases step_flags s e he with ⟨h1, _⟩ | h1
      · rw [h1]; exact hb
      · exact h1
    exact ih (step s e).1 hrest this

/-- C3: a speech-probability event arriving after speaking-start but before
the 350 ms dead-zone timer callback has run (modelled as any event sequence
not containing `Event.deadZoneTimer`) finds barge-in disarmed and triggers
nothing, for every probability; and the timer callback arms barge-in exactly
when the session is still speaking. -/
theorem c3_dead_zone (s0 : ClientState) (es : List Event) (p : ℚ)
    (hnot : Event.deadZoneTimer ∉ es) :
    (runEvents (onAISpeechStart s0).1 es).bargeInEnabled = false ∧
    step (runEvents (onAISpeechStart s0).1 es) (Event.vad p)
      = (runEvents (onAISpeechStart s0).1 es, []) ∧
    (step (runEvents (onAISpeechStart s0).1 es) Event.deadZoneTimer).1.bargeInEnabled
      = (runEvents (onAISpeechStart s0).1 es).aiSpeaking := by
  have hb0 : (onAISpeechStart s0).1.bargeInEnabled = false := by
    simp [onAISpeechStart]
  have hb := runEvents_disarmed es (onAISpeechStart s0).1 hnot hb0
  refine ⟨hb, ?_, ?_⟩
  · simp [step, hb]
  · cases ha : (runEvents (onAISpeechStart s0).1 es).aiSpeaking
    · simp [step, ha, hb]
    · simp [step, ha]

/-- C3 witness: from a concrete speaking state, a 0.95-probability window and
a partial frame arrive inside the dead zone; no barge-in occurs, and the
timer then arms barge-in because the session is still speaking. -/
theorem c3_dead_zone_witness :
    (runEvents (onAISpeechStart exState).1 [Event.vad (19/20), partialEvt "a1" "lo"]).bargeInEnabled = false ∧
    step (runEvents (onAISpeechStart exState).1 [Event.vad (19/20), partialEvt "a1" "lo"]) (Event.vad (19/20))
      = (runEvents (onAISpeechStart exState).1 [Event.vad (19/20), partialEvt "a1" "lo"], []) ∧
    (step (runEvents (onAISpeechStart exState).1 [Event.vad (19/20), partialEvt "a1" "lo"])
        Event.deadZoneTimer).1.bargeInEnabled
      = (runEvents (onAISpeechStart exState).1 [Event.vad (19/20), partialEvt "a1" "lo"]).aiSpeaking :=
  c3_dead_zone exState [Event.vad (19/20), partialEvt "a1" "lo"] (19/20) (by decide)

/-- C6: in every reachable state, an armed barge-in flag implies the
assistant is speaking. -/
theorem c6_barge_in_implies_speaking (s : ClientState) (h : Reachable s)
    (hb : s.bargeInEnabled = true) : s.aiSpeaking = true := by
  induction h with
  | init => exact absurd hb (by simp [initState])
  | next e hs ih =>
    rename_i s'
    by_cases he : e = Event.deadZoneTimer
    · subst he
      cases ha : s'.aiSpeaking
      · have : (step s' Event.deadZoneTimer).1 = s' := by simp [step, ha]
        rw [this] at hb ⊢
        exact ih hb
      · simp [step, ha]
    · rcases step_flags s' e he with ⟨h1, h2⟩ | h1
      · rw [h2]; exact ih (h1 ▸ hb)
      · exact absurd hb (by simp [h1])

/-- C6 witness: the concrete reachable state `armedState` has barge-in armed,
and the theorem yields that it is speaking. -/
theorem c6_witness : armedState.aiSpeaking = true :=
  c6_barge_in_implies_speaking armedState
    (Reachable.next Event.deadZoneTimer (Reachable.next _ (Reachable.next _
      (Reachable.next _ (Reachable.next _ Reachable.init))))) (by decide)

/-- C7: on spontaneous end-of-capture (`recognition.onend`), capture is
restarted exactly when the session is still running and not speaking. -/
theorem c7_capture_restart (s : ClientState) :
    Effect.startRecognition ∈ (step s Event.recEnd).2 ↔
      (s.running = true ∧ s.aiSpeaking = false) := by
  cases hr : s.running <;> cases ha : s.aiSpeaking <;> simp [step, hr, ha]

/-- C7 witness: in a running, non-speaking state the restart is issued. -/
theorem c7_capture_restart_witness :
    Effect.startRecognition ∈
      (step { initState with running := true, recognition := true } Event.recEnd).2 :=
  (c7_capture_restart { initState with running := true, recognition := true }).mpr
    ⟨rfl, rfl⟩

/-- C8: `stopAssistant` is idempotent: applied to the state a first call
produced, it returns that state unchanged and performs no effects (no
duplicate resource release). -/
theorem c8_stop_idempotent (s : ClientState) :
    stopAssistant (stopAssistant s).1 = ((stopAssistant s).1, []) := by
  have h : (stopAssistant s).1.running = false := by
    unfold stopAssistant
    by_cases hr : s.running = true <;> simp [hr, stopSpeaking]
  rw [stopAssistant.eq_def, h]
  simp

/-- C9: the VAD applies threshold 0.8 (= 4/5) while speaking and 0.65
(= 13/20) otherwise; a window at exactly the active threshold triggers
nothing, and the barge-in reaction fires exactly when the session is
speaking, barge-in is armed, and the probability strictly exceeds the active
threshold. -/
theorem c9_vad_thresholds (s : ClientState) (p : ℚ) :
    vadThreshold true = 4/5 ∧ vadThreshold false = 13/20 ∧
    step s (Event.vad (vadThreshold s.aiSpeaking)) = (s, []) ∧
    (¬ step s (Event.vad p) = (s, []) ↔
      (s.aiSpeaking = true ∧ s.bargeInEnabled = true ∧
        vadThreshold s.aiSpeaking < p)) := by
  refine ⟨by norm_num [vadThreshold], by norm_num [vadThreshold], ?_, ?_⟩
  · simp [step]
  · cases ha : s.aiSpeaking <;> cases hb : s.bargeInEnabled <;>
      by_cases hp : vadThreshold s.aiSpeaking < p <;>
      simp [step, ha, hb, hp, stopSpeaking, Prod.ext_iff]

/-- C9 witness: in the concrete speaking, armed state a 0.9-probability
window (above the 0.8 speaking threshold) does trigger the barge-in
reaction. -/
theorem c9_vad_thresholds_witness :
    ¬ step exState (Event.vad (9/10)) = (exState, []) :=
  (c9_vad_thresholds exState (9/10)).2.2.2.mpr
    ⟨rfl, rfl, by norm_num [vadThreshold, exState, initState]⟩

/-- C10: an inbound frame whose decoded `id` is falsy (absent, null or the
empty string) is dropped without touching any client state, and in
particular the server's own "Invalid JSON" error reply, which carries
`id: null`, never reaches the display. -/
theorem c10_untruthy_id_dropped (m : WSMsg) (s : ClientState)
    (h : truthy m.id = false) :
    handleWSMessage m s = (s, []) ∧
    handleWSMessage invalidJsonReply s = (s, []) := by
  constructor
  · unfold handleWSMessage
    cases hm : m.id with
    | none => rfl
    | some id =>
      have hid : id = "" := by
        by_contra hne
        simp [truthy, hm, hne] at h
      simp [hid]
  · rfl

/-- C10 witness: the invalid-JSON reply applied to the initial state changes
nothing. -/
theorem c10_untruthy_id_dropped_witness :
    handleWSMessage invalidJsonReply initState = (initState, []) ∧
    handleWSMessage invalidJsonReply initState = (initState, []) :=
  c10_untruthy_id_dropped invalidJsonReply initState rfl

/-- C1 (counterexample to the claim as stated): in the concrete speaking,
armed state `exState`, a qualifying 0.9-probability window fires barge-in —
playback is cancelled, the cancel for `"a1"` is sent and recognition is
restarted — yet the partial-accumulator entry for `"a1"` is NOT cleared. -/
theorem c1_counterexample :
    (step exState (Event.vad (9/10))).2 =
      [Effect.cancelSynthesis, Effect.stopAudio,
       Effect.sendCancel "a1", Effect.startRecognition] ∧
    bufGet (step exState (Event.vad (9/10))).1.partialBuffer "a1" = some "Hel" := by
  have hlt : vadThreshold true < (9:ℚ)/10 := by norm_num [vadThreshold]
  constructor <;>
    simp [step, stopSpeaking, exState, initState, truthy, bufGet, hlt]

/-- C1 (amended): when barge-in fires, the effects in order are: cancel
fallback synthesis, stop audio playback (when a playback element exists),
send a cancel for the active request id and clear it, and restart the
capture session; the partial accumulator is left untouched. -/
theorem c1_barge_in (s : ClientState) (p : ℚ) (rid : String)
    (hspeak : s.aiSpeaking = true) (harmed : s.bargeInEnabled = true)
    (hp : vadThreshold s.aiSpeaking < p)
    (hws : s.wsReady = true) (hrid : s.currentReqId = some rid)
    (hrid' : ¬ rid = "") (hrec : s.recognition = true) :
    step s (Event.vad p) =
      ({ s with aiSpeaking := false, bargeInEnabled := false, audio := false,
                currentReqId := none },
       Effect.cancelSynthesis ::
         (if s.audio then [Effect.stopAudio] else []) ++
         [Effect.sendCancel rid, Effect.startRecognition]) ∧
    (step s (Event.vad p)).1.partialBuffer = s.partialBuffer := by
  have hcond : (s.aiSpeaking && s.bargeInEnabled &&
      decide (p > vadThreshold s.aiSpeaking)) = true := by
    simp [hspeak, harmed]
    exact hspeak ▸ hp
  constructor
  · simp [step, hcond, stopSpeaking, truthy, hws, hrid, hrid', hrec]
  · simp [step, hcond, stopSpeaking_partialBuffer]

/-- C1 witness: the amended barge-in effects at the concrete state. -/
theorem c1_barge_in_witness :
    step exState (Event.vad (9/10)) =
      ({ exState with aiSpeaking := false, bargeInEnabled := false,
                      audio := false, currentReqId := none },
       Effect.cancelSynthesis ::
         (if exState.audio then [Effect.stopAudio] else []) ++
         [Effect.sendCancel "a1", Effect.startRecognition]) ∧
    (step exState (Event.vad (9/10))).1.partialBuffer = exState.partialBuffer :=
  c1_barge_in exState (9/10) "a1" rfl rfl
    (by norm_num [vadThreshold, exState, initState]) rfl rfl (by decide) rfl

/-- C2 (divergence witness): `handleWSMessage` performs no comparison with
the tracked active request id, so a `partial` frame carrying the stale id
`"a1"` — different from the active id `"b2"` — still overwrites the
displayed answer. -/
theorem c2_stale_id_overwrites :
    staleState.currentReqId = some "b2" ∧
    ¬ some "a1" = staleState.currentReqId ∧
    (handleWSMessage
        { type := "partial", id := some "a1", text := some "!", error := none }
        staleState).1.botText = "old!" := by
  refine ⟨rfl, by decide, ?_⟩
  simp [handleWSMessage, staleState, initState, bufGet]

/-- C4 (counterexample to the claim as stated): after the terminal `error`
event for request `"a1"` its accumulator entry survives, and a `cancelled`
frame (the terminal event of a cancelled request) is ignored entirely, so
entries of errored and cancelled requests are never deleted. -/
theorem c4_counterexample :
    bufGet (handleWSMessage
        { type := "error", id := some "a1", text := none, error := some "boom" }
        exState).1.partialBuffer "a1" = some "Hel" ∧
    handleWSMessage
        { type := "cancelled", id := some "a1", text := none, error := none }
        exState = (exState, []) := by
  constructor
  · simp [handleWSMessage, exState, initState, bufGet]
  · simp [handleWSMessage]

/-- C4 (amended): the accumulator entry for a request id is created (empty)
when the request starts; it is deleted when a `final` event for that id
arrives, but an `error` event leaves the accumulator untouched and a
`cancelled` frame leaves the entire state untouched. -/
theorem c4_accumulator_lifecycle (s : ClientState) (q fid : String)
    (err : Option String) (hq : ¬ q.trim = "") (hfid : ¬ fid = "")
    (hws : s.wsReady = true) :
    bufGet (handleQuestion q fid s).1.partialBuffer fid = some "" ∧
    bufGet (handleWSMessage
        { type := "final", id := some fid, text := none, error := none }
        s).1.partialBuffer fid = none ∧
    (handleWSMessage
        { type := "error", id := some fid, text := none, error := err }
        s).1.partialBuffer = s.partialBuffer ∧
    handleWSMessage
        { type := "cancelled", id := some fid, text := none, error := none }
        s = (s, []) := by
  refine ⟨?_, ?_, ?_, ?_⟩
  · simp [handleQuestion, hq, hws, bufGet_bufSet_self]
  · simp [handleWSMessage, hfid, onAISpeechStart, bufGet_bufDel_self]
  · simp [handleWSMessage, hfid]
  · simp [handleWSMessage, hfid]

/-- The literal question used by witnesses survives trimming. -/
theorem hi_trim_nonempty : ¬ ("hi" : String).trim = "" := by
  simp only [String.trim, String.toSubstring, Substring.trim]
  rw [Substring.takeWhileAux]
  rw [Substring.takeRightWhileAux]
  decide

/-- C4 witness: the amended lifecycle at a concrete state and ids. -/
theorem c4_accumulator_lifecycle_witness :
    bufGet (handleQuestion "hi" "b2" exState).1.partialBuffer "b2" = some "" ∧
    bufGet (handleWSMessage
        { type := "final", id := some "b2", text := none, error := none }
        exState).1.partialBuffer "b2" = none ∧
    (handleWSMessage
        { type := "error", id := some "b2", text := none, error := some "boom" }
        exState).1.partialBuffer = exState.partialBuffer ∧
    handleWSMessage
        { type := "cancelled", id := some "b2", text := none, error := none }
        exState = (exState, []) :=
  c4_accumulator_lifecycle exState "hi" "b2" (some "boom")
    hi_trim_nonempty (by decide) rfl

theorem bufGet_runPartials (id : String) (hid : ¬ id = "") (frags : List String) :
    ∀ (s : ClientState) (v : String),
      bufGet s.partialBuffer id = some v →
      bufGet (runEvents s (frags.map (partialEvt id))).partialBuffer id
        = some (v ++ concatFrags frags) := by
  induction frags with
  | nil =>
    intro s v h
    simpa [runEvents, concatFrags] using h
  | cons t ts ih =>
    intro s v h
    have hstep : (step s (partialEvt id t)).1.partialBuffer
        = bufSet s.partialBuffer id (v ++ t) := by
      simp [step, partialEvt, handleWSMessage, hid, h]
    have h2 : bufGet (step s (partialEvt id t)).1.partialBuffer id
        = some (v ++ t) := by
      rw [hstep]; exact bufGet_bufSet_self _ _ _
    have h3 := ih (step s (partialEvt id t)).1 (v ++ t) h2
    show bufGet (runEvents (step s (partialEvt id t)).1
        (ts.map (partialEvt id))).partialBuffer id = _
    rw [h3, concatFrags, ← String.append_assoc]

/-- C5: starting from the (empty) entry created for a request id, processing
its partial frames in order accumulates exactly their in-order
concatenation; a terminal `final` frame whose payload omits the text then
hands that concatenation to playback and clears the entry. -/
theorem c5_partials_roundtrip (id : String) (hid : ¬ id = "")
    (frags : List String) (s : ClientState)
    (hentry : bufGet s.partialBuffer id = some "") :
    bufGet (runEvents s (frags.map (partialEvt id))).partialBuffer id
      = some (concatFrags frags) ∧
    Effect.speak (concatFrags frags) ∈
      (handleWSMessage (finalNoTextMsg id)
        (runEvents s (frags.map (partialEvt id)))).2 ∧
    bufGet (handleWSMessage (finalNoTextMsg id)
        (runEvents s (frags.map (partialEvt id)))).1.partialBuffer id = none := by
  have hacc : bufGet (runEvents s (frags.map (partialEvt id))).partialBuffer id
      = some (concatFrags frags) := by
    simpa using bufGet_runPartials id hid frags s "" hentry
  refine ⟨hacc, ?_, ?_⟩
  · simp only [handleWSMessage, finalNoTextMsg, hid, hacc, onAISpeechStart]
    simp [jsOr]
    by_cases h : concatFrags frags = "" <;> simp [h]
  · simp [handleWSMessage, finalNoTextMsg, hid, onAISpeechStart,
      bufGet_bufDel_self]

/-- C5 witness: partials `"Hel"`, `"lo"` followed by a text-less final yield
the spoken answer `"Hello"` and remove the accumulator entry. -/
theorem c5_partials_roundtrip_witness :
    bufGet (runEvents { initState with partialBuffer := [("a1", "")] }
        (["Hel", "lo"].map (partialEvt "a1"))).partialBuffer "a1"
      = some "Hello" ∧
    Effect.speak "Hello" ∈
      (handleWSMessage (finalNoTextMsg "a1")
        (runEvents { initState with partialBuffer := [("a1", "")] }
          (["Hel", "lo"].map (partialEvt "a1")))).2 ∧
    bufGet (handleWSMessage (finalNoTextMsg "a1")
        (runEvents { initState with partialBuffer := [("a1", "")] }
          (["Hel", "lo"].map (partialEvt "a1")))).1.partialBuffer "a1" = none :=
  c5_partials_roundtrip "a1" (by decide) ["Hel", "lo"]
    { initState with partialBuffer := [("a1", "")] } rfl
